import Mathlib

/-!
Shallow embedding of the MS-GEO-PY geographic microservice
(`src/routers/geo.py`, `src/schemas/geo.py`, `src/models/city.py`,
`src/models/zone.py`, `src/config.py`) and proofs about it.

Modelling conventions:
* SQLAlchemy rows are Lean structures; attribute values that a Python
  `setattr` can set to `None` are `Option`s (the column's `nullable=False`
  is only enforced by the store at flush time, not by the attribute).
* The database is a `GeoDB`: lists of rows plus autoincrement counters.
* Timestamps are abstract `Nat` ticks passed to each mutating operation.
* Pydantic validation is an explicit function per schema; `field_validator`s
  run after the `Field` constraints, and defaults are not validated
  (pydantic v2 `validate_default=False`).
* HTTP outcomes: `Except ApiError` with `notFound` (404) and `conflict`
  (the 400 raised on duplicates); FastAPI 422 request-validation failures
  are the `none`/`false` branch of the validation functions.
-/

deriving instance DecidableEq for Except

/-- Errors raised explicitly by the router via HTTPException. -/
inductive ApiError where
  | notFound
  | conflict
deriving Repr, DecidableEq

-- ========== config.py ==========

/-- `settings.DEFAULT_COUNTRY` from `src/config.py`. -/
def DEFAULT_COUNTRY : String := "Colombia"

-- ========== Coordinate validation (schemas/geo.py: CoordinateValidation) ==========

/-- Stage-1 `Field` bounds on `CoordinateValidation`: `ge=-90 le=90` for
latitude, `ge=-180 le=180` for longitude. -/
def wgs84Ok (lat lon : ℚ) : Prop :=
  -90 ≤ lat ∧ lat ≤ 90 ∧ -180 ≤ lon ∧ lon ≤ 180

/-- Stage-2 field validators `validate_latitude_colombia` /
`validate_longitude_colombia`: `-5 <= v <= 13` and `-80 <= v <= -66`. -/
def colombiaOk (lat lon : ℚ) : Prop :=
  -5 ≤ lat ∧ lat ≤ 13 ∧ -80 ≤ lon ∧ lon ≤ -66

instance (lat lon : ℚ) : Decidable (wgs84Ok lat lon) := by
  unfold wgs84Ok; infer_instance

instance (lat lon : ℚ) : Decidable (colombiaOk lat lon) := by
  unfold colombiaOk; infer_instance

/-- A `CoordinateValidation` payload parses iff the `Field` bounds pass and
then both Colombia-range validators pass. -/
def coordinateAccepted (lat lon : ℚ) : Bool :=
  decide (wgs84Ok lat lon) && decide (colombiaOk lat lon)

/-- `CoordinateResponse` from `src/schemas/geo.py`. -/
structure CoordinateResponse where
  latitude : ℚ
  longitude : ℚ
  is_valid : Bool
  country : String
deriving Repr, DecidableEq

/-- `validate_coordinates` endpoint (`src/routers/geo.py`): on a payload that
passes `CoordinateValidation` it echoes the coordinates with
`is_valid=True` and `country=settings.DEFAULT_COUNTRY`; `none` is the 422
raised by request validation. It touches no database state. -/
def validate_coordinates (lat lon : ℚ) : Option CoordinateResponse :=
  if coordinateAccepted lat lon then
    some ⟨lat, lon, true, DEFAULT_COUNTRY⟩
  else
    none

-- ========== Characters and colors (schemas/geo.py: ZoneBase) ==========

/-- Character class `[0-9A-Fa-f]` of the `color` `Field` pattern
`^#[0-9A-Fa-f]{6}$`, expressed on code points. -/
def isHexDigitChar (c : Char) : Bool :=
  decide ((48 ≤ c.toNat ∧ c.toNat ≤ 57) ∨ (97 ≤ c.toNat ∧ c.toNat ≤ 102) ∨
    (65 ≤ c.toNat ∧ c.toNat ≤ 70))

/-- Character class `[0-9A-F]` of the spec's normalized pattern
`^#[0-9A-F]{6}$`. -/
def isUpperHexChar (c : Char) : Bool :=
  decide ((48 ≤ c.toNat ∧ c.toNat ≤ 57) ∨ (65 ≤ c.toNat ∧ c.toNat ≤ 70))

/-- Python `str.upper()` on one ASCII character: `a`-`z` (code points
97-122) map 32 down, everything else in the ASCII range is unchanged.
The color strings this is applied to are ASCII by the pattern check. -/
def pyUpperChar (c : Char) : Char :=
  if 97 ≤ c.toNat ∧ c.toNat ≤ 122 then Char.ofNat (c.toNat - 32) else c

/-- Python `v.upper()` restricted to ASCII strings. -/
def pyUpper (s : String) : String := ⟨s.data.map pyUpperChar⟩

/-- The `Field` pattern `^#[0-9A-Fa-f]{6}$` on `ZoneBase.color` and
`ZoneUpdate.color`. It subsumes the later `validate_color` checks
(`startswith('#')`, `len(v) == 7`). -/
def colorPattern (s : String) : Bool :=
  match s.data with
  | c :: rest => c == '#' && rest.length == 6 && rest.all isHexDigitChar
  | [] => false

/-- The spec's normalized pattern `^#[0-9A-F]{6}$`. -/
def colorUpperPattern (s : String) : Bool :=
  match s.data with
  | c :: rest => c == '#' && rest.length == 6 && rest.all isUpperHexChar
  | [] => false

-- ========== Rows and database state (models/city.py, models/zone.py) ==========

/-- A `cities` row as held on the ORM object: every column a Python
`setattr` can set to `None` is an `Option` (the `nullable=False` of
`models/city.py` is enforced only by the store at flush time). -/
structure CityRow where
  id : Nat
  name : Option String
  country : Option String
  is_active : Option Bool
  created_at : Nat
  updated_at : Nat
deriving Repr, DecidableEq

/-- A `zones` row as held on the ORM object (`models/zone.py`). -/
structure ZoneRow where
  id : Nat
  name : Option String
  city_id : Option Nat
  color : Option String
  description : Option String
  is_active : Option Bool
  created_at : Nat
  updated_at : Nat
deriving Repr, DecidableEq

/-- The relational store: both tables plus autoincrement id counters. -/
structure GeoDB where
  cities : List CityRow
  zones : List ZoneRow
  nextCityId : Nat
  nextZoneId : Nat
deriving Repr, DecidableEq

/-- Declared column constraints, from the SQLAlchemy `Column(...)` calls. -/
structure ColumnSpec where
  nullable : Bool
  unique : Bool
deriving Repr, DecidableEq

/-- `models/city.py`: `name = Column(String(255), unique=True, nullable=False,
index=True)`. -/
def cityNameColumn : ColumnSpec := ⟨false, true⟩

-- ========== Pydantic schemas (schemas/geo.py) ==========

/-- A validated `CityCreate` payload. -/
structure CityCreate where
  name : String
  country : String
deriving Repr, DecidableEq

/-- Parsing a raw `CityCreate` payload: `name` required with
`min_length=2, max_length=255`; `country` optional with `max_length=100`,
defaulting to `"Colombia"`. `none` is a 422. -/
def cityCreateValidate (name : String) (country : Option String) :
    Option CityCreate :=
  if 2 ≤ name.length ∧ name.length ≤ 255 then
    match country with
    | none => some ⟨name, "Colombia"⟩
    | some co => if co.length ≤ 100 then some ⟨name, co⟩ else none
  else none

/-- A validated `CityUpdate` payload. Outer `Option` = present in the payload
(`exclude_unset`); inner `Option` = the value, which may be an explicit
JSON `null` since every field is `Optional`. -/
structure CityUpdate where
  name : Option (Option String)
  country : Option (Option String)
  is_active : Option (Option Bool)
deriving Repr, DecidableEq

/-- `CityUpdate` validation: pydantic applies the `min_length`/`max_length`
constraints only to values that are actual strings; an explicit `null`
passes because each field is `Optional` with default `None`. -/
def cityUpdateValid (u : CityUpdate) : Bool :=
  (match u.name with
   | some (some s) => decide (2 ≤ s.length ∧ s.length ≤ 255)
   | _ => true) &&
  (match u.country with
   | some (some s) => decide (s.length ≤ 100)
   | _ => true)

/-- A validated `ZoneCreate` payload (`color` already defaulted or
pattern-checked and uppercased, see `zoneCreateValidate`). -/
structure ZoneCreate where
  name : String
  city_id : Nat
  color : String
  description : Option String
deriving Repr, DecidableEq

/-- Parsing a raw `ZoneCreate` payload: `name` 2-255 chars, `city_id` a
positive integer, `description` optional. For `color`: the pydantic default
`"#3498db"` is used as-is when the field is absent (`validate_default` is
off, so neither the pattern nor `validate_color` runs on it); an explicit
value must match `^#[0-9A-Fa-f]{6}$` and is then returned uppercased by
`validate_color`. -/
def zoneCreateValidate (name : String) (city_id : Int) (color : Option String)
    (description : Option String) : Option ZoneCreate :=
  if 2 ≤ name.length ∧ name.length ≤ 255 ∧ 0 < city_id then
    match color with
    | none => some ⟨name, city_id.toNat, "#3498db", description⟩
    | some c =>
      if colorPattern c then some ⟨name, city_id.toNat, pyUpper c, description⟩
      else none
  else none

/-- A validated `ZoneUpdate` payload; double `Option` as in `CityUpdate`. -/
structure ZoneUpdate where
  name : Option (Option String)
  city_id : Option (Option Nat)
  color : Option (Option String)
  description : Option (Option String)
  is_active : Option (Option Bool)
deriving Repr, DecidableEq

/-- `ZoneUpdate` validation. `ZoneUpdate` extends `BaseModel`, not
`ZoneBase`, so its `color` field carries only the `Field` pattern
`^#[0-9A-Fa-f]{6}$` and NOT the uppercasing `validate_color` validator;
constraints are skipped on explicit `null`s. -/
def zoneUpdateValid (u : ZoneUpdate) : Bool :=
  (match u.name with
   | some (some s) => decide (2 ≤ s.length ∧ s.length ≤ 255)
   | _ => true) &&
  (match u.city_id with
   | some (some n) => decide (0 < n)
   | _ => true) &&
  (match u.color with
   | some (some c) => colorPattern c
   | _ => true)

-- ========== Response schemas (schemas/geo.py) ==========

/-- `CityResponse`: `id`, `name`, `country`, `is_active`, `created_at` —
and no `updated_at` field. -/
structure CityResponse where
  id : Nat
  name : Option String
  country : Option String
  is_active : Option Bool
  created_at : Nat
deriving Repr, DecidableEq

/-- Serializing a row through `CityResponse` (`from_attributes=True`). -/
def cityToResponse (c : CityRow) : CityResponse :=
  ⟨c.id, c.name, c.country, c.is_active, c.created_at⟩

/-- `ZoneResponse`: the `ZoneBase` fields plus `id`, `is_active`,
`created_at` — and no `updated_at` field. -/
structure ZoneResponse where
  id : Nat
  name : Option String
  city_id : Option Nat
  color : Option String
  description : Option String
  is_active : Option Bool
  created_at : Nat
deriving Repr, DecidableEq

/-- Serializing a row through `ZoneResponse`. `ZoneResponse` inherits
`ZoneBase`, so `model_validate` re-runs `validate_color` on the stored
value and the serialized color is uppercased even when the row is not. -/
def zoneToResponse (z : ZoneRow) : ZoneResponse :=
  ⟨z.id, z.name, z.city_id, z.color.map pyUpper, z.description, z.is_active,
    z.created_at⟩

/-- `ZoneWithCityResponse`: `ZoneResponse` plus the joined city's `name`
and `country`. -/
structure ZoneWithCityResponse where
  id : Nat
  name : Option String
  city_id : Option Nat
  color : Option String
  description : Option String
  is_active : Option Bool
  created_at : Nat
  city_name : Option String
  city_country : Option String
deriving Repr, DecidableEq

/-- Building a `ZoneWithCityResponse` from a joined (zone, city) pair. -/
def zoneToWithCity (z : ZoneRow) (c : CityRow) : ZoneWithCityResponse :=
  ⟨z.id, z.name, z.city_id, z.color.map pyUpper, z.description, z.is_active,
    z.created_at, c.name, c.country⟩

/-- `CityWithZonesResponse`: `CityResponse` plus `zones` and `total_zones`. -/
structure CityWithZonesResponse where
  id : Nat
  name : Option String
  country : Option String
  is_active : Option Bool
  created_at : Nat
  zones : List ZoneResponse
  total_zones : Nat
deriving Repr, DecidableEq

-- ========== Router operations (routers/geo.py) ==========

/-- `db.query(City).filter(City.id == city_id).first()`. -/
def findCity (db : GeoDB) (i : Nat) : Option CityRow :=
  db.cities.find? (fun c => c.id == i)

/-- `db.query(Zone).filter(Zone.id == zone_id).first()`. -/
def findZone (db : GeoDB) (i : Nat) : Option ZoneRow :=
  db.zones.find? (fun z => z.id == i)

/-- The optional `City.is_active == is_active` filter; a SQL `NULL`
attribute compares false against either boolean. -/
def activeFilterCity (fil : Option Bool) (c : CityRow) : Bool :=
  match fil with
  | none => true
  | some b => c.is_active == some b

/-- `get_cities` endpoint: FastAPI `Query` constraints `skip ge=0`
(default 0) and `limit ge=1 le=1000` (default 100) reject out-of-range
values with a 422 (the `none` branch); otherwise filter, then
`offset(skip).limit(limit)`, serialized through `CityResponse`. -/
def get_cities (db : GeoDB) (skip limit : Option Int) (is_active : Option Bool) :
    Option (List CityResponse) :=
  let s := skip.getD 0
  let l := limit.getD 100
  if 0 ≤ s ∧ 1 ≤ l ∧ l ≤ 1000 then
    some ((((db.cities.filter (activeFilterCity is_active)).drop s.toNat).take
      l.toNat).map cityToResponse)
  else none

/-- The zones of a city that are currently active:
`db.query(Zone).filter(Zone.city_id == city_id, Zone.is_active == True)`. -/
def activeZonesOf (db : GeoDB) (city_id : Nat) : List ZoneRow :=
  db.zones.filter (fun z => z.city_id == some city_id && z.is_active == some true)

/-- `get_city_with_zones` endpoint: 404 when no city has the id, else the
city with its active zones and `total_zones = len(zones)`. -/
def get_city_with_zones (db : GeoDB) (city_id : Nat) :
    Except ApiError CityWithZonesResponse :=
  match findCity db city_id with
  | none => .error .notFound
  | some c =>
    let zs := activeZonesOf db city_id
    .ok ⟨c.id, c.name, c.country, c.is_active, c.created_at,
      zs.map zoneToResponse, zs.length⟩

/-- `create_city` endpoint: pre-check
`db.query(City).filter(City.name == city_data.name).first()`, 400 on a hit;
otherwise insert with the autoincrement id, column defaults
(`is_active=True`) and server timestamps, and return the new row. -/
def create_city (db : GeoDB) (cd : CityCreate) (now : Nat) :
    Except ApiError (CityRow × GeoDB) :=
  match db.cities.find? (fun c => c.name == some cd.name) with
  | some _ => .error .conflict
  | none =>
    let c : CityRow := ⟨db.nextCityId, some cd.name, some cd.country, some true,
      now, now⟩
    .ok (c, { db with cities := db.cities ++ [c], nextCityId := db.nextCityId + 1 })

/-- No field of the payload was set (`model_dump(exclude_unset=True)` is
empty). -/
def CityUpdate.isUnset (u : CityUpdate) : Bool :=
  u.name.isNone && u.country.isNone && u.is_active.isNone

/-- The `for field, value in update_data.items(): setattr(city, field, value)`
loop: each field present in the payload overwrites the attribute (with
`none` on an explicit `null`), each absent field is untouched.
`updated_at` is refreshed by the column `onupdate` when the commit writes
the row, i.e. when anything was set. -/
def applyCityUpdate (c0 : CityRow) (u : CityUpdate) (now : Nat) : CityRow :=
  { c0 with
    name := u.name.getD c0.name
    country := u.country.getD c0.country
    is_active := u.is_active.getD c0.is_active
    updated_at := if u.isUnset then c0.updated_at else now }

/-- `update_city` endpoint: 404 when the id is absent, else apply the
partial payload and return the updated row. -/
def update_city (db : GeoDB) (city_id : Nat) (u : CityUpdate) (now : Nat) :
    Except ApiError (CityRow × GeoDB) :=
  match findCity db city_id with
  | none => .error .notFound
  | some c0 =>
    let c1 := applyCityUpdate c0 u now
    .ok (c1, { db with
      cities := db.cities.map (fun w => if w.id == city_id then c1 else w) })

/-- The `db.query(Zone, City).join(City, Zone.city_id == City.id)` inner
join, as the nested-loop product of the two tables on the join condition. -/
def zoneCityJoin (db : GeoDB) : List (ZoneRow × CityRow) :=
  db.zones.flatMap fun z =>
    (db.cities.filter (fun c => z.city_id == some c.id)).map (fun c => (z, c))

/-- `get_zones` endpoint: the join, the optional `city_id` and `is_active`
filters, `offset(skip).limit(limit)` under the same `Query` bounds as
`get_cities`, each row denormalized with the city's name and country. -/
def get_zones (db : GeoDB) (city_fil : Option Nat) (skip limit : Option Int)
    (is_active : Option Bool) : Option (List ZoneWithCityResponse) :=
  let s := skip.getD 0
  let l := limit.getD 100
  if 0 ≤ s ∧ 1 ≤ l ∧ l ≤ 1000 then
    let rows := (zoneCityJoin db).filter fun p =>
      (match city_fil with
       | none => true
       | some i => p.1.city_id == some i) &&
      (match is_active with
       | none => true
       | some b => p.1.is_active == some b)
    some (((rows.drop s.toNat).take l.toNat).map (fun p => zoneToWithCity p.1 p.2))
  else none

/-- `create_zone` endpoint: 404 when `zone_data.city_id` matches no city;
400 when a zone with the same `(name, city_id)` already exists; otherwise
insert with the autoincrement id and column defaults and return the row. -/
def create_zone (db : GeoDB) (zd : ZoneCreate) (now : Nat) :
    Except ApiError (ZoneRow × GeoDB) :=
  match findCity db zd.city_id with
  | none => .error .notFound
  | some _ =>
    match db.zones.find? (fun z =>
        z.name == some zd.name && z.city_id == some zd.city_id) with
    | some _ => .error .conflict
    | none =>
      let z : ZoneRow := ⟨db.nextZoneId, some zd.name, some zd.city_id,
        some zd.color, zd.description, some true, now, now⟩
      .ok (z, { db with
                zones := db.zones ++ [z]
                nextZoneId := db.nextZoneId + 1 })

/-- No field of the zone payload was set. -/
def ZoneUpdate.isUnset (u : ZoneUpdate) : Bool :=
  u.name.isNone && u.city_id.isNone && u.color.isNone &&
    u.description.isNone && u.is_active.isNone

/-- The `setattr` loop of `update_zone`; same semantics as
`applyCityUpdate`. Note: no uniqueness re-check, no city existence check,
and no color normalization happen here — the loop writes the validated
payload values as they are. -/
def applyZoneUpdate (z0 : ZoneRow) (u : ZoneUpdate) (now : Nat) : ZoneRow :=
  { z0 with
    name := u.name.getD z0.name
    city_id := u.city_id.getD z0.city_id
    color := u.color.getD z0.color
    description := u.description.getD z0.description
    is_active := u.is_active.getD z0.is_active
    updated_at := if u.isUnset then z0.updated_at else now }

/-- `update_zone` endpoint: 404 when the id is absent, else apply the
partial payload and return the updated row. -/
def update_zone (db : GeoDB) (zone_id : Nat) (u : ZoneUpdate) (now : Nat) :
    Except ApiError (ZoneRow × GeoDB) :=
  match findZone db zone_id with
  | none => .error .notFound
  | some z0 =>
    let z1 := applyZoneUpdate z0 u now
    .ok (z1, { db with
      zones := db.zones.map (fun w => if w.id == zone_id then z1 else w) })

-- ========== Store-level unique index on City.name (models/city.py) ==========

/-- Outcome of one `create_city` request, including the outcome the router
code leaves unhandled. -/
inductive CreateCityOutcome where
  | created (c : CityRow) (db : GeoDB)
  | conflict
  | unhandledStoreError
deriving Repr, DecidableEq

/-- The store's `INSERT` under the `unique=True` index on `cities.name`
(`models/city.py`): it refuses a row whose non-null name collides with an
existing row (`none` = the integrity error the database raises). -/
def insertCityStore (db : GeoDB) (c : CityRow) : Option GeoDB :=
  if db.cities.any (fun w => w.name.isSome && w.name == c.name) then none
  else some { db with
              cities := db.cities ++ [c]
              nextCityId := db.nextCityId + 1 }

/-- `create_city` with its pre-check and its insert observing two store
states: `checkDB` at the `first()` query and `insertDB` at `db.commit()`.
Sequentially the two coincide; they differ when a concurrent request
commits the same name in between (spec §5 notes check-then-insert is not
atomic). The router wraps neither `db.add` nor `db.commit` in any handler,
so a unique-index violation raised by the store propagates out of the
endpoint unhandled instead of becoming the 400 Conflict. -/
def create_city_interleaved (checkDB insertDB : GeoDB) (cd : CityCreate)
    (now : Nat) : CreateCityOutcome :=
  match checkDB.cities.find? (fun c => c.name == some cd.name) with
  | some _ => .conflict
  | none =>
    let c : CityRow := ⟨insertDB.nextCityId, some cd.name, some cd.country,
      some true, now, now⟩
    match insertCityStore insertDB c with
    | none => .unhandledStoreError
    | some db' => .created c db'

-- ========== Invariant predicates ==========

/-- Two zone rows collide on the `(name, city_id)` pair (with SQL `NULL`
semantics: a null never collides). -/
def dupPair (a b : ZoneRow) : Bool :=
  a.name.isSome && a.name == b.name && a.city_id.isSome && a.city_id == b.city_id

/-- The stored zones are pairwise distinct on `(name, city_id)`. -/
def zonePairUnique (db : GeoDB) : Prop :=
  db.zones.Pairwise (fun a b => dupPair a b = false)

instance (db : GeoDB) : Decidable (zonePairUnique db) := by
  unfold zonePairUnique; infer_instance

/-- Every stored zone's `city_id` references an existing city row. -/
def zonesRefIntegrity (db : GeoDB) : Bool :=
  db.zones.all fun z =>
    match z.city_id with
    | some ci => db.cities.any (fun c => c.id == ci)
    | none => false

-- ========== Concrete states for witnesses and counterexamples ==========

/-- City id 1. -/
def cityBogota : CityRow := ⟨1, some "Bogota", some "Colombia", some true, 0, 0⟩

/-- City id 2. -/
def cityMedellin : CityRow := ⟨2, some "Medellin", some "Colombia", some true, 0, 0⟩

/-- Zone id 1, "Norte" in city 1. -/
def zoneNorte : ZoneRow := ⟨1, some "Norte", some 1, some "#E74C3C", none, some true, 0, 0⟩

/-- Zone id 2, "Sur" in city 1. -/
def zoneSur : ZoneRow := ⟨2, some "Sur", some 1, some "#27AE60", none, some true, 0, 0⟩

/-- Two cities, zones "Norte" and "Sur" in city 1. -/
def exDB : GeoDB := ⟨[cityBogota, cityMedellin], [zoneNorte, zoneSur], 3, 3⟩

/-- An empty store. -/
def emptyDB : GeoDB := ⟨[], [], 1, 1⟩

/-- A create payload for a city named "Bogota". -/
def cdBogota : CityCreate := ⟨"Bogota", "Colombia"⟩

/-- Zone id 3, "Centro" in city 1, active. -/
def zoneCentro : ZoneRow := ⟨3, some "Centro", some 1, some "#F39C12", none, some true, 0, 0⟩

/-- Zone id 4, "Viejo" in city 1, inactive. -/
def zoneViejo : ZoneRow := ⟨4, some "Viejo", some 1, some "#F39C12", none, some false, 0, 0⟩

/-- One city with three active zones and one inactive zone. -/
def exDB5 : GeoDB := ⟨[cityBogota], [zoneNorte, zoneSur, zoneCentro, zoneViejo], 2, 5⟩

/-- The response `get_city_with_zones exDB5 1` produces. -/
def exResp5 : CityWithZonesResponse :=
  ⟨1, some "Bogota", some "Colombia", some true, 0,
    [zoneToResponse zoneNorte, zoneToResponse zoneSur, zoneToResponse zoneCentro], 3⟩

/-- A zone update renaming to "Norte" (name of another zone of the city). -/
def exUpd1 : ZoneUpdate := ⟨some (some "Norte"), none, none, none, none⟩

/-- A zone update moving the zone to the non-existent city 99. -/
def exUpd2 : ZoneUpdate := ⟨none, some (some 99), none, none, none⟩

/-- A zone update with a lowercase hex color. -/
def exUpd3 : ZoneUpdate := ⟨none, none, some (some "#aabbcc"), none, none⟩

/-- A city update whose payload is exactly `{"name": null}`. -/
def nullNameUpdate : CityUpdate := ⟨some none, none, none⟩

/-- A city update whose payload is exactly `{"country": "Peru"}`. -/
def exUpd7 : CityUpdate := ⟨none, some (some "Peru"), none⟩

/-- `cityBogota` after `exUpd7` at tick 7. -/
def exCity7 : CityRow := ⟨1, some "Bogota", some "Peru", some true, 0, 7⟩

/-- `exDB` after `exUpd7` on city 1 at tick 7. -/
def exDB7 : GeoDB := ⟨[exCity7, cityMedellin], [zoneNorte, zoneSur], 3, 3⟩

-- ========== Helper lemmas ==========

/-- Uppercasing a hex digit yields an uppercase hex digit. -/
theorem upper_hexDigitChar (c : Char) (h : isHexDigitChar c = true) :
    isUpperHexChar (pyUpperChar c) = true := by
  unfold isHexDigitChar at h
  rw [decide_eq_true_iff] at h
  unfold pyUpperChar isUpperHexChar
  rcases h with hd | hl | hu
  · rw [if_neg (by omega)]
    exact decide_eq_true_iff.mpr (Or.inl hd)
  · rw [if_pos ⟨hl.1, by omega⟩]
    have hv : (Char.ofNat (c.toNat - 32)).toNat = c.toNat - 32 := by
      obtain ⟨h1, h2⟩ := hl
      set n := c.toNat with hn
      interval_cases n <;> decide
    rw [decide_eq_true_iff, hv]
    right
    omega
  · rw [if_neg (by omega)]
    exact decide_eq_true_iff.mpr (Or.inr hu)

/-- Uppercasing a string that matches the case-insensitive color pattern
yields one that matches the uppercase pattern. -/
theorem colorPattern_upper (s : String) (h : colorPattern s = true) :
    colorUpperPattern (pyUpper s) = true := by
  unfold colorPattern at h
  unfold colorUpperPattern pyUpper
  cases hdata : s.data with
  | nil => rw [hdata] at h; exact absurd h (by decide)
  | cons c rest =>
    rw [hdata] at h
    simp only [List.map]
    simp only [Bool.and_eq_true, List.all_eq_true, beq_iff_eq] at h ⊢
    obtain ⟨⟨hc, hlen⟩, hall⟩ := h
    subst hc
    refine ⟨⟨by decide, by simpa using hlen⟩, ?_⟩
    intro x hx
    rw [List.mem_map] at hx
    obtain ⟨y, hy, rfl⟩ := hx
    exact upper_hexDigitChar y (hall y hy)

/-- C4: a coordinate pair is accepted iff it lies in the operating box
`[-5,13] × [-80,-66]` (pairs inside WGS84 bounds but outside the box are
rejected, pairs outside WGS84 bounds are rejected since the box is
contained in them), and an accepted pair yields a response echoing the same
latitude and longitude with `is_valid = true` and the configured default
country, with no persistence (the function reads no store). -/
theorem coordinate_validation_box (lat lon : ℚ) :
    validate_coordinates lat lon =
      (if -5 ≤ lat ∧ lat ≤ 13 ∧ -80 ≤ lon ∧ lon ≤ -66 then
        some ⟨lat, lon, true, "Colombia"⟩
      else none) := by
  unfold validate_coordinates coordinateAccepted DEFAULT_COUNTRY
  by_cases hbox : colombiaOk lat lon
  · have hw : wgs84Ok lat lon := by
      obtain ⟨h1, h2, h3, h4⟩ := hbox
      exact ⟨by linarith, by linarith, by linarith, by linarith⟩
    have hbox' : -5 ≤ lat ∧ lat ≤ 13 ∧ -80 ≤ lon ∧ lon ≤ -66 := hbox
    simp [hbox, hw, hbox']
  · have : ¬(-5 ≤ lat ∧ lat ≤ 13 ∧ -80 ≤ lon ∧ lon ≤ -66) := hbox
    simp [hbox, this, colombiaOk]

/-- C10: the response schemas `CityResponse`, `ZoneResponse` and
`ZoneWithCityResponse` omit the `updated_at` column: serializing two rows
that differ only in `updated_at` yields identical responses, while `id`,
`is_active` and `created_at` are exposed unchanged — so the refresh of
`updated_at` on mutation is not observable in any response body. -/
theorem responses_omit_updated_at (c ct : CityRow) (z : ZoneRow) (u v : Nat) :
    cityToResponse { c with updated_at := u } = cityToResponse c ∧
    zoneToResponse { z with updated_at := v } = zoneToResponse z ∧
    zoneToWithCity { z with updated_at := v } { ct with updated_at := u } =
      zoneToWithCity z ct ∧
    (cityToResponse c).id = c.id ∧
    (cityToResponse c).is_active = c.is_active ∧
    (cityToResponse c).created_at = c.created_at ∧
    (zoneToResponse z).id = z.id ∧
    (zoneToResponse z).is_active = z.is_active ∧
    (zoneToResponse z).created_at = z.created_at :=
  ⟨rfl, rfl, rfl, rfl, rfl, rfl, rfl, rfl, rfl⟩

/-- C9: `CityUpdate` accepts the payload `{"name": null}` (each optional
field admits an explicit null), the column `cities.name` is declared
`nullable=False`, and `update_city` then assigns that null to the stored
attribute — the explicit null reaches the store layer instead of being
rejected by application-level validation. -/
theorem update_city_accepts_explicit_null :
    cityUpdateValid nullNameUpdate = true ∧
    cityNameColumn.nullable = false ∧
    (∀ db city_id now c1 db1,
      update_city db city_id nullNameUpdate now = .ok (c1, db1) → c1.name = none) := by
  refine ⟨rfl, rfl, ?_⟩
  intro db city_id now c1 db1 h
  cases hf : findCity db city_id with
  | none => simp [update_city, hf] at h
  | some c0 =>
    simp only [update_city, hf, Except.ok.injEq, Prod.mk.injEq] at h
    obtain ⟨h1, _⟩ := h
    subst h1
    rfl

/-- Witness for C9 at city 1 of `exDB`. -/
theorem update_city_accepts_explicit_null_witness :
    (⟨1, none, some "Colombia", some true, 0, 5⟩ : CityRow).name = none :=
  update_city_accepts_explicit_null.2.2 exDB 1 5
    ⟨1, none, some "Colombia", some true, 0, 5⟩
    ⟨[⟨1, none, some "Colombia", some true, 0, 5⟩, cityMedellin],
      [zoneNorte, zoneSur], 3, 3⟩ (by decide)

/-- C1 counterexample: in a store where the `(name, city_id)` pairs are
distinct, the valid partial update `{"name": "Norte"}` on zone 2 succeeds
and leaves two zones named "Norte" in city 1 — `update_zone` re-checks
nothing. -/
theorem update_zone_breaks_pair_uniqueness :
    zonePairUnique exDB ∧
    zoneUpdateValid exUpd1 = true ∧
    (update_zone exDB 2 exUpd1 5).toOption.map
      (fun p => decide (zonePairUnique p.2)) = some false := by
  exact ⟨by decide, by decide, by decide⟩

/-- C2 counterexample: in a store satisfying referential integrity, the
valid partial update `{"city_id": 99}` on zone 1 succeeds at the
application layer and leaves a zone pointing at the non-existent city 99 —
`update_zone` does not verify the new `city_id`. -/
theorem update_zone_skips_city_check :
    zonesRefIntegrity exDB = true ∧
    zoneUpdateValid exUpd2 = true ∧
    (update_zone exDB 1 exUpd2 5).toOption.map
      (fun p => zonesRefIntegrity p.2) = some false := by
  exact ⟨by decide, by decide, by decide⟩

/-- C3 counterexample: the valid update `{"color": "#aabbcc"}` on zone 1
succeeds and stores the color exactly as sent — `ZoneUpdate` has no
uppercasing validator, so the stored value does not match `^#[0-9A-F]{6}$`. -/
theorem update_zone_color_not_uppercased :
    zoneUpdateValid exUpd3 = true ∧
    (update_zone exDB 1 exUpd3 5).toOption.map (fun p => p.1.color) =
      some (some "#aabbcc") ∧
    colorUpperPattern "#aabbcc" = false := by
  exact ⟨by decide, by decide, by decide⟩

/-- C6 counterexample: when the pre-check reads a store without the name
but the insert hits a store where a concurrent request has committed
"Bogota", the unique-index violation surfaces from the store and — with no
handler in `create_city` — the outcome is an unhandled store error, not
the 400 Conflict. -/
theorem create_city_store_conflict_unhandled :
    create_city_interleaved emptyDB exDB cdBogota 5 =
      CreateCityOutcome.unhandledStoreError ∧
    CreateCityOutcome.unhandledStoreError ≠ CreateCityOutcome.conflict := by
  exact ⟨by decide, by decide⟩

/-- C7: on a successful `update_city`, the updated row keeps `id` and
`created_at`, every field absent from the partial payload keeps its stored
value, every field present is overwritten with the supplied value, and an
empty payload returns the stored row unchanged (`updated_at` aside, which
the claim excludes). -/
theorem update_city_partial_semantics (db : GeoDB) (city_id : Nat)
    (u : CityUpdate) (now : Nat) (c1 : CityRow) (db1 : GeoDB)
    (h : update_city db city_id u now = .ok (c1, db1)) :
    ∃ c0, findCity db city_id = some c0 ∧
      c1.id = c0.id ∧ c1.created_at = c0.created_at ∧
      c1.name = u.name.getD c0.name ∧
      c1.country = u.country.getD c0.country ∧
      c1.is_active = u.is_active.getD c0.is_active ∧
      (u = ⟨none, none, none⟩ → c1 = c0) := by
  cases hf : findCity db city_id with
  | none => simp [update_city, hf] at h
  | some c0 =>
    simp only [update_city, hf, Except.ok.injEq, Prod.mk.injEq] at h
    obtain ⟨h1, _⟩ := h
    subst h1
    refine ⟨c0, rfl, rfl, rfl, rfl, rfl, rfl, ?_⟩
    rintro rfl
    rfl

/-- Witness for C7: updating city 1 of `exDB` with `{"country": "Peru"}`. -/
theorem update_city_partial_semantics_witness :
    ∃ c0, findCity exDB 1 = some c0 ∧
      exCity7.id = c0.id ∧ exCity7.created_at = c0.created_at ∧
      exCity7.name = exUpd7.name.getD c0.name ∧
      exCity7.country = exUpd7.country.getD c0.country ∧
      exCity7.is_active = exUpd7.is_active.getD c0.is_active ∧
      (exUpd7 = ⟨none, none, none⟩ → exCity7 = c0) :=
  update_city_partial_semantics exDB 1 exUpd7 7 exCity7 exDB7 (by decide)

/-- C5: `get_city_with_zones` is 404 exactly when no city has the id;
otherwise the returned `zones` are the city's active zones (inactive ones
are neither listed nor counted), `total_zones` equals the length of that
returned subset, and the city fields are echoed. -/
theorem get_city_zones_count (db : GeoDB) (city_id : Nat) :
    (findCity db city_id = none →
      get_city_with_zones db city_id = .error .notFound) ∧
    (∀ r, get_city_with_zones db city_id = .ok r →
      ∃ c, findCity db city_id = some c ∧
        r.zones = (activeZonesOf db city_id).map zoneToResponse ∧
        r.total_zones = r.zones.length ∧
        r.total_zones = (activeZonesOf db city_id).length ∧
        r.id = c.id ∧ r.name = c.name ∧ r.country = c.country ∧
        r.is_active = c.is_active ∧ r.created_at = c.created_at) := by
  constructor
  · intro h; simp [get_city_with_zones, h]
  · intro r h
    cases hf : findCity db city_id with
    | none => simp [get_city_with_zones, hf] at h
    | some c =>
      simp only [get_city_with_zones, hf, Except.ok.injEq] at h
      subst h
      exact ⟨c, rfl, rfl, (List.length_map _ _).symm, rfl, rfl, rfl, rfl, rfl, rfl⟩

/-- Witness for C5: `exDB5` has one city with three active zones and one
inactive zone; the response lists 3 zones and counts 3 of 4 stored. -/
theorem get_city_zones_count_witness :
    (∃ c, findCity exDB5 1 = some c ∧
      exResp5.zones = (activeZonesOf exDB5 1).map zoneToResponse ∧
      exResp5.total_zones = exResp5.zones.length ∧
      exResp5.total_zones = (activeZonesOf exDB5 1).length ∧
      exResp5.id = c.id ∧ exResp5.name = c.name ∧ exResp5.country = c.country ∧
      exResp5.is_active = c.is_active ∧ exResp5.created_at = c.created_at) ∧
    exResp5.total_zones = 3 ∧ exResp5.zones.length = 3 ∧ exDB5.zones.length = 4 :=
  ⟨(get_city_zones_count exDB5 1).2 exResp5 (by decide), by decide, by decide,
    by decide⟩

/-- C1 amended: `create_zone` alone maintains `(name, city_id)` uniqueness —
creating a zone whose pair matches an existing zone's (under an existing
city) fails with Conflict, creating under a different existing city with no
such pair succeeds, and a successful create preserves pairwise
distinctness; `update_zone`, however, performs no uniqueness re-check, so a
partial update of `name` or `city_id` can produce two stored zones with the
same pair (see the counterexample). -/
theorem create_zone_pair_uniqueness (db : GeoDB) (zd : ZoneCreate) (now : Nat) :
    ((∃ c, findCity db zd.city_id = some c) →
      (∃ z ∈ db.zones, z.name = some zd.name ∧ z.city_id = some zd.city_id) →
      create_zone db zd now = .error .conflict) ∧
    ((∃ c, findCity db zd.city_id = some c) →
      (∀ z ∈ db.zones, ¬(z.name = some zd.name ∧ z.city_id = some zd.city_id)) →
      ∃ p, create_zone db zd now = .ok p) ∧
    (zonePairUnique db →
      ∀ z1 db1, create_zone db zd now = .ok (z1, db1) → zonePairUnique db1) := by
  refine ⟨?_, ?_, ?_⟩
  · rintro ⟨c, hc⟩ ⟨z, hz, hzn, hzc⟩
    cases hd : db.zones.find? (fun w =>
        w.name == some zd.name && w.city_id == some zd.city_id) with
    | none =>
      have := List.find?_eq_none.mp hd z hz
      simp [hzn, hzc] at this
    | some w => simp [create_zone, hc, hd]
  · rintro ⟨c, hc⟩ hall
    cases hd : db.zones.find? (fun w =>
        w.name == some zd.name && w.city_id == some zd.city_id) with
    | some w =>
      have hw := List.find?_some hd
      have hmem := List.mem_of_find?_eq_some hd
      simp only [Bool.and_eq_true, beq_iff_eq] at hw
      exact absurd ⟨hw.1, hw.2⟩ (hall w hmem)
    | none =>
      refine ⟨(⟨db.nextZoneId, some zd.name, some zd.city_id, some zd.color,
        zd.description, some true, now, now⟩,
        { db with
          zones := db.zones ++ [⟨db.nextZoneId, some zd.name, some zd.city_id,
            some zd.color, zd.description, some true, now, now⟩]
          nextZoneId := db.nextZoneId + 1 }), ?_⟩
      simp [create_zone, hc, hd]
  · intro hpu z1 db1 h
    cases hc : findCity db zd.city_id with
    | none => simp [create_zone, hc] at h
    | some c =>
      cases hd : db.zones.find? (fun w =>
          w.name == some zd.name && w.city_id == some zd.city_id) with
      | some w => simp [create_zone, hc, hd] at h
      | none =>
        simp only [create_zone, hc, hd, Except.ok.injEq, Prod.mk.injEq] at h
        obtain ⟨hz1, hdb1⟩ := h
        subst hdb1
        unfold zonePairUnique
        show (db.zones ++ [(⟨db.nextZoneId, some zd.name, some zd.city_id,
          some zd.color, zd.description, some true, now, now⟩ : ZoneRow)]).Pairwise _
        rw [List.pairwise_append]
        refine ⟨hpu, by simp, ?_⟩
        intro a ha b hb
        simp only [List.mem_singleton] at hb
        subst hb
        have hna := List.find?_eq_none.mp hd a ha
        simp only [Bool.and_eq_true, beq_iff_eq, not_and] at hna
        apply Bool.eq_false_iff.mpr
        intro htrue
        simp only [dupPair, Bool.and_eq_true, beq_iff_eq] at htrue
        obtain ⟨⟨⟨hs, h1⟩, hs2⟩, h2⟩ := htrue
        exact hna h1 h2

/-- Witness for C1: creating "Norte" in city 2 of `exDB` succeeds even
though a "Norte" exists in city 1. -/
theorem create_zone_pair_uniqueness_witness :
    ∃ p, create_zone exDB ⟨"Norte", 2, "#AABB00", none⟩ 9 = .ok p :=
  (create_zone_pair_uniqueness exDB ⟨"Norte", 2, "#AABB00", none⟩ 9).2.1
    ⟨cityMedellin, by decide⟩ (by decide)

/-- C2 amended: `create_zone` verifies in application code that `city_id`
references an existing city before writing — a non-existent `city_id`
always yields NotFound — and a successful create preserves referential
integrity of the zones table; `update_zone`, however, performs no such
check when it changes `city_id`, so at the application layer an update can
leave a zone referencing a non-existent city (see the counterexample). -/
theorem create_zone_city_ref_integrity (db : GeoDB) (zd : ZoneCreate) (now : Nat) :
    (findCity db zd.city_id = none → create_zone db zd now = .error .notFound) ∧
    (zonesRefIntegrity db = true →
      ∀ z1 db1, create_zone db zd now = .ok (z1, db1) →
        zonesRefIntegrity db1 = true) := by
  constructor
  · intro h; simp [create_zone, h]
  · intro hri z1 db1 h
    cases hc : findCity db zd.city_id with
    | none => simp [create_zone, hc] at h
    | some c =>
      cases hd : db.zones.find? (fun w =>
          w.name == some zd.name && w.city_id == some zd.city_id) with
      | some w => simp [create_zone, hc, hd] at h
      | none =>
        simp only [create_zone, hc, hd, Except.ok.injEq, Prod.mk.injEq] at h
        obtain ⟨hz1, hdb1⟩ := h
        subst hdb1
        unfold zonesRefIntegrity at hri ⊢
        show (db.zones ++ [(⟨db.nextZoneId, some zd.name, some zd.city_id,
          some zd.color, zd.description, some true, now, now⟩ : ZoneRow)]).all _ = true
        rw [List.all_append]
        simp only [Bool.and_eq_true]
        refine ⟨hri, ?_⟩
        simp only [List.all_cons, List.all_nil, Bool.and_true]
        unfold findCity at hc
        have hmem := List.mem_of_find?_eq_some hc
        have hp := List.find?_some hc
        exact List.any_eq_true.mpr ⟨c, hmem, hp⟩

/-- Witness for C2: creating a zone under the non-existent city 99 of
`exDB` is NotFound. -/
theorem create_zone_city_ref_integrity_witness :
    create_zone exDB ⟨"Oeste", 99, "#AABB00", none⟩ 9 = .error .notFound :=
  (create_zone_city_ref_integrity exDB ⟨"Oeste", 99, "#AABB00", none⟩ 9).1
    (by decide)

/-- C6 amended: `create_city` yields Conflict whenever the pre-check sees a
city with the same name, and otherwise inserts and returns the new row
with the generated id and timestamps; but a uniqueness-constraint
violation surfaced by the store during the insert is NOT converted to
Conflict — the endpoint has no handler around `db.add`/`db.commit`, so
when the pre-check misses (the state having changed between check and
insert) the violation escapes as an unhandled error. -/
theorem create_city_conflict_semantics (db checkDB insertDB : GeoDB)
    (cd : CityCreate) (now : Nat) :
    ((∃ c ∈ db.cities, c.name = some cd.name) →
      create_city db cd now = .error .conflict) ∧
    ((∀ c ∈ db.cities, c.name ≠ some cd.name) →
      ∃ db1, create_city db cd now =
        .ok (⟨db.nextCityId, some cd.name, some cd.country, some true, now, now⟩,
          db1)) ∧
    ((∀ c ∈ checkDB.cities, c.name ≠ some cd.name) →
      (∃ c ∈ insertDB.cities, c.name = some cd.name) →
      create_city_interleaved checkDB insertDB cd now =
        CreateCityOutcome.unhandledStoreError) := by
  refine ⟨?_, ?_, ?_⟩
  · rintro ⟨c, hc, hn⟩
    cases hf : db.cities.find? (fun w => w.name == some cd.name) with
    | none =>
      have := List.find?_eq_none.mp hf c hc
      simp [hn] at this
    | some w => simp [create_city, hf]
  · intro hall
    cases hf : db.cities.find? (fun w => w.name == some cd.name) with
    | some w =>
      have hw := List.find?_some hf
      have hmem := List.mem_of_find?_eq_some hf
      rw [beq_iff_eq] at hw
      exact absurd hw (hall w hmem)
    | none =>
      refine ⟨{ db with
        cities := db.cities ++ [⟨db.nextCityId, some cd.name, some cd.country,
          some true, now, now⟩]
        nextCityId := db.nextCityId + 1 }, ?_⟩
      simp [create_city, hf]
  · intro hchk hins
    cases hf : checkDB.cities.find? (fun w => w.name == some cd.name) with
    | some w =>
      have hw := List.find?_some hf
      have hmem := List.mem_of_find?_eq_some hf
      rw [beq_iff_eq] at hw
      exact absurd hw (hchk w hmem)
    | none =>
      obtain ⟨c, hc, hn⟩ := hins
      have hany : insertDB.cities.any
          (fun w => w.name.isSome && w.name == (some cd.name : Option String)) =
          true :=
        List.any_eq_true.mpr ⟨c, hc, by simp [hn]⟩
      simp [create_city_interleaved, hf, insertCityStore, hany]

/-- Witness for C6: creating "Bogota" against `exDB`, which already holds
it, is the 400 Conflict. -/
theorem create_city_conflict_semantics_witness :
    create_city exDB cdBogota 9 = .error .conflict :=
  (create_city_conflict_semantics exDB exDB exDB cdBogota 9).1
    ⟨cityBogota, by decide, by decide⟩

/-- C8: for `get_cities` and `get_zones`, a request with `skip < 0` or
`limit` outside `[1,1000]` is rejected as malformed (422), an in-range
request returns the filtered list after dropping `skip` and taking at most
`limit` rows, and an absent `skip`/`limit` defaults to `0`/`100`. -/
theorem pagination_bounds (db : GeoDB) (s l : Int) (cf : Option Nat)
    (af : Option Bool) :
    (get_cities db (some s) (some l) af = none ↔ ¬(0 ≤ s ∧ 1 ≤ l ∧ l ≤ 1000)) ∧
    (get_zones db cf (some s) (some l) af = none ↔
      ¬(0 ≤ s ∧ 1 ≤ l ∧ l ≤ 1000)) ∧
    (∀ out, get_cities db (some s) (some l) af = some out →
      out.length ≤ l.toNat ∧
      out = (((db.cities.filter (activeFilterCity af)).drop s.toNat).take
        l.toNat).map cityToResponse) ∧
    (∀ out, get_zones db cf (some s) (some l) af = some out →
      out.length ≤ l.toNat) ∧
    get_cities db none none af = get_cities db (some 0) (some 100) af ∧
    get_zones db cf none none af = get_zones db cf (some 0) (some 100) af := by
  refine ⟨?_, ?_, ?_, ?_, rfl, rfl⟩
  · by_cases hb : 0 ≤ s ∧ 1 ≤ l ∧ l ≤ 1000 <;> simp [get_cities, hb]
  · by_cases hb : 0 ≤ s ∧ 1 ≤ l ∧ l ≤ 1000 <;> simp [get_zones, hb]
  · intro out h
    by_cases hb : 0 ≤ s ∧ 1 ≤ l ∧ l ≤ 1000
    · simp only [get_cities, Option.getD_some] at h
      rw [if_pos hb] at h
      injection h with h
      subst h
      exact ⟨by rw [List.length_map]; exact List.length_take_le _ _, rfl⟩
    · simp [get_cities, hb] at h
  · intro out h
    by_cases hb : 0 ≤ s ∧ 1 ≤ l ∧ l ≤ 1000
    · simp only [get_zones, Option.getD_some] at h
      rw [if_pos hb] at h
      injection h with h
      subst h
      rw [List.length_map]
      exact List.length_take_le _ _
    · simp [get_zones, hb] at h

/-- Witness for C8: `exDB` has 2 cities; `limit=1` returns exactly the
first one. -/
theorem pagination_bounds_witness :
    exDB.cities.length = 2 ∧
    (([cityToResponse cityBogota] : List CityResponse).length ≤ (1 : Int).toNat ∧
      ([cityToResponse cityBogota] : List CityResponse) =
        (((exDB.cities.filter (activeFilterCity none)).drop (0 : Int).toNat).take
          (1 : Int).toNat).map cityToResponse) :=
  ⟨by decide, (pagination_bounds exDB 0 1 none none).2.2.1
    [cityToResponse cityBogota] (by decide)⟩

/-- C3 amended: an explicit color on the create path must match
`^#[0-9A-Fa-f]{6}$` and is stored uppercased (so it matches
`^#[0-9A-F]{6}$`), and `"blue"` is rejected with a field-scoped error on
both the create and the update path; but the uppercase-on-store guarantee
does not extend further: a create with `color` omitted stores the
unvalidated pydantic default `"#3498db"` as-is, and `update_zone` stores a
supplied color exactly as sent, without normalization (see the
counterexample), since `ZoneUpdate` lacks the `validate_color` validator. -/
theorem zone_color_normalization (name : String) (city_id : Int)
    (col : String) (d : Option String) (u : ZoneUpdate) (db : GeoDB)
    (zone_id now : Nat) :
    (∀ zc, zoneCreateValidate name city_id (some col) d = some zc →
      zc.color = pyUpper col ∧ colorUpperPattern zc.color = true) ∧
    (∀ zc, zoneCreateValidate name city_id none d = some zc →
      zc.color = "#3498db") ∧
    zoneCreateValidate name city_id (some "blue") d = none ∧
    zoneUpdateValid ⟨none, none, some (some "blue"), none, none⟩ = false ∧
    (∀ cv z1 db1, u.color = some (some cv) →
      update_zone db zone_id u now = .ok (z1, db1) → z1.color = some cv) := by
  refine ⟨?_, ?_, ?_, by decide, ?_⟩
  · intro zc h
    by_cases hv : 2 ≤ name.length ∧ name.length ≤ 255 ∧ 0 < city_id
    · by_cases hp : colorPattern col = true
      · simp only [zoneCreateValidate] at h
        rw [if_pos hv, if_pos hp] at h
        injection h with h
        subst h
        exact ⟨rfl, colorPattern_upper col hp⟩
      · simp [zoneCreateValidate, hv, hp] at h
    · simp [zoneCreateValidate, hv] at h
  · intro zc h
    by_cases hv : 2 ≤ name.length ∧ name.length ≤ 255 ∧ 0 < city_id
    · simp only [zoneCreateValidate] at h
      rw [if_pos hv] at h
      injection h with h
      subst h
      rfl
    · simp [zoneCreateValidate, hv] at h
  · by_cases hv : 2 ≤ name.length ∧ name.length ≤ 255 ∧ 0 < city_id
    · simp [zoneCreateValidate, hv, show colorPattern "blue" = false from
        by decide]
    · simp [zoneCreateValidate, hv]
  · intro cv z1 db1 hcol h
    cases hz : findZone db zone_id with
    | none => simp [update_zone, hz] at h
    | some z0 =>
      simp only [update_zone, hz, Except.ok.injEq, Prod.mk.injEq] at h
      obtain ⟨h1, _⟩ := h
      subst h1
      show (applyZoneUpdate z0 u now).color = some cv
      unfold applyZoneUpdate
      simp [hcol]

/-- Witness for C3: creating with the lowercase `"#3498db"` stores
`"#3498DB"`, which matches the uppercase pattern. -/
theorem zone_color_normalization_witness :
    ((⟨"Norte", 1, "#3498DB", none⟩ : ZoneCreate).color = pyUpper "#3498db" ∧
      colorUpperPattern (⟨"Norte", 1, "#3498DB", none⟩ : ZoneCreate).color =
        true) ∧
    zoneCreateValidate "Norte" 1 (some "#3498db") none =
      some ⟨"Norte", 1, "#3498DB", none⟩ :=
  ⟨(zone_color_normalization "Norte" 1 "#3498db" none
      ⟨none, none, none, none, none⟩ emptyDB 1 1).1
    ⟨"Norte", 1, "#3498DB", none⟩ (by decide), by decide⟩
